import Mathlib

set_option maxRecDepth 2000

/-- Byte strings of the Python source are modelled as lists of naturals
(each byte being a value below 256 where that matters). -/
abbrev Bytes := List Nat

/-- Python `int.from_bytes(b)` with big-endian byte order (the source always
uses the default big-endian order). -/
def fromBytesBE (l : Bytes) : Nat :=
  l.foldl (fun acc b => 256 * acc + b) 0

/-- Python `n.to_bytes(length=k)` with big-endian byte order, on the domain
`n < 256^k` where the source calls it (after its own range validation). -/
def toBytesBE (k n : Nat) : Bytes :=
  (List.range k).map (fun i => n / 256 ^ (k - 1 - i) % 256)

/-- Python slice `l[a:b]`: negative indices count from the end, and both
bounds are clamped into `[0, len l]`; the result is empty when the resolved
stop does not exceed the resolved start. -/
def pySlice (l : Bytes) (a b : Int) : Bytes :=
  let n : Int := l.length
  let s : Int := if a < 0 then max (n + a) 0 else min a n
  let e : Int := if b < 0 then max (n + b) 0 else min b n
  (l.take e.toNat).drop s.toNat

/-- The error kinds of the spec.  The source raises `ValueError` for the two
Pointer validation failures (RangeError / LengthError in the spec's naming)
and `AssertionError` for the header/trailer mismatch (PageIntegrityError). -/
inductive Err where
  | rangeError
  | lengthError
  | pageIntegrityError
  | malformedIndexError
  | outOfBoundsError
deriving DecidableEq

/-- Source `class Pointer` (src/DataBase/data.py:3): holds 4 raw bytes,
3-byte page number followed by 1-byte line number. -/
structure Pointer where
  _pointer : Bytes
deriving DecidableEq

/-- Source `Pointer.__init__` (data.py:9-14): validates the ranges and stores
`page.to_bytes(3) + line.to_bytes(1)`.  Arguments are integers, so they are
modelled as `Int` to allow the negative inputs the validation rejects. -/
def Pointer.create (page line : Int) : Except Err Pointer :=
  if page > 8388607 ∨ page < 0 then .error .rangeError
  else if line > 255 ∨ line < 0 then .error .rangeError
  else .ok ⟨toBytesBE 3 page.toNat ++ toBytesBE 1 line.toNat⟩

/-- Source `Pointer.from_bytes` (data.py:16-28): length check, then the bytes
are injected into a blank pointer unchanged; there is no range validation. -/
def Pointer.from_bytes (chars : Bytes) : Except Err Pointer :=
  if chars.length ≠ 4 then .error .lengthError
  else .ok ⟨chars⟩

/-- Source `Pointer.page` property (data.py:30-32): `int.from_bytes(self._pointer[:3])`. -/
def Pointer.page (p : Pointer) : Nat :=
  fromBytesBE (p._pointer.take 3)

/-- Source `Pointer.line` property (data.py:34-36): `self._pointer[-1]`. -/
def Pointer.line (p : Pointer) : Nat :=
  p._pointer.getLastD 0

/-- The 4-byte encoding of a pointer: the raw bytes it holds. -/
def Pointer.encode (p : Pointer) : Bytes :=
  p._pointer

/-- Source constant `PAGE_SIZE = 4096` (data.py:48). -/
def PAGE_SIZE : Nat := 4096

/-- Source `class Record` (data.py:50-110): raw bytes, a 2-byte type tag
followed by the payload. -/
structure Record where
  _record : Bytes
deriving DecidableEq

/-- Source `Record.record_type` property (data.py:59-61). -/
def Record.record_type (r : Record) : Nat :=
  fromBytesBE (r._record.take 2)

/-- Source `Record.data` property (data.py:63-65). -/
def Record.data (r : Record) : Bytes :=
  r._record.drop 2

/-- The spec's `Record::create(type_tag, payload)`: the 2-byte encoding of the
tag followed by the payload.  This is also how `Line.record` in the source
builds a record from a line-index entry's type and the line's payload bytes. -/
def Record.create (tag : Nat) (payload : Bytes) : Record :=
  ⟨toBytesBE 2 tag ++ payload⟩

/-- Python lexicographic comparison `<` on bytes, as used by the source's
`Record.__lt__` (data.py:73-74): compare bytewise; a strict prefix is
smaller than the longer string. -/
def pyBytesLt : Bytes → Bytes → Bool
  | _, [] => false
  | [], _ :: _ => true
  | a :: as, b :: bs =>
    if a < b then true
    else if b < a then false
    else pyBytesLt as bs

/-- Source `Record.__lt__` (data.py:73-74): `self._record < other._record`. -/
def Record.lt (a b : Record) : Bool :=
  pyBytesLt a._record b._record

/-- Source `Record.__add__` (data.py:106-107): a new record over the raw
concatenation of both records' bytes. -/
def Record.add (a b : Record) : Record :=
  ⟨a._record ++ b._record⟩

/-- Source `DB_Page.PageHeader` (data.py:127-155): a view over the first
24 bytes of the page. -/
structure PageHeader where
  _header : Bytes
deriving DecidableEq

/-- Source `PageHeader.page_number` (data.py:141-143): first 4 bytes. -/
def PageHeader.page_number (h : PageHeader) : Nat :=
  fromBytesBE (h._header.take 4)

/-- Source `PageHeader.available_space` (data.py:153-155): bytes 12..13. -/
def PageHeader.available_space (h : PageHeader) : Nat :=
  fromBytesBE ((h._header.drop 12).take 2)

/-- Source `DB_Page.PageTrailer` (data.py:157-174): a view over the last
8 bytes of the page. -/
structure PageTrailer where
  _trailer : Bytes
deriving DecidableEq

/-- Source `PageTrailer.line_index_count` (data.py:168-170): byte 0. -/
def PageTrailer.line_index_count (t : PageTrailer) : Nat :=
  t._trailer.headD 0

/-- Source `PageTrailer.page_number` (data.py:172-174): bytes 4..7. -/
def PageTrailer.page_number (t : PageTrailer) : Nat :=
  fromBytesBE (t._trailer.drop 4)

/-- Source `DB_Page.LineIndex.LineIndexEntry` (data.py:182-208): an 8-byte
slot descriptor. -/
structure LineIndexEntry where
  _entry : Bytes
deriving DecidableEq

/-- Source `LineIndexEntry.record_type` (data.py:194-196): bytes 0..1. -/
def LineIndexEntry.record_type (e : LineIndexEntry) : Nat :=
  fromBytesBE (e._entry.take 2)

/-- Source `LineIndexEntry.offset` (data.py:198-200): bytes 2..3. -/
def LineIndexEntry.offset (e : LineIndexEntry) : Nat :=
  fromBytesBE ((e._entry.drop 2).take 2)

/-- Source `LineIndexEntry.length` (data.py:202-204): bytes 4..5. -/
def LineIndexEntry.length (e : LineIndexEntry) : Nat :=
  fromBytesBE ((e._entry.drop 4).take 2)

/-- Source `LineIndexEntry.pointer_size` (data.py:206-208): bytes 6..7. -/
def LineIndexEntry.pointer_size (e : LineIndexEntry) : Nat :=
  fromBytesBE (e._entry.drop 6)

/-- Source `DB_Page.LineIndex.__init__` (data.py:210-212), literally:
`[LineIndexEntry(contents[-(i+8):-i]) for i in range(len(contents), 0, -8)]`.
`range(n, 0, -8)` yields `(n+7)/8` values `n, n-8, ...`, all positive, here
produced as the `j`-th value `n - 8*j`; each slice keeps the source's
negative-index arithmetic exactly (including its clamping behaviour). -/
def LineIndex.parse (contents : Bytes) : List LineIndexEntry :=
  (List.range ((contents.length + 7) / 8)).map (fun j =>
    let i : Int := (contents.length : Int) - 8 * j
    ⟨pySlice contents (-(i + 8)) (-i)⟩)

/-- Source `DB_Page.Line` (data.py:214-232): a record type, the line's raw
bytes, and the count of leading 4-byte pointers. -/
structure Line where
  record_type : Nat
  _line : Bytes
  pointer_count : Nat
deriving DecidableEq

/-- Source `Line.pointers` (data.py:225-228): the leading 4-byte groups,
each decoded through `Pointer.from_bytes`. -/
def Line.pointers (l : Line) : List (Except Err Pointer) :=
  (List.range l.pointer_count).map (fun i =>
    Pointer.from_bytes (pySlice l._line (4 * i) (4 * (i + 1))))

/-- Source `Line.record` (data.py:230-232): a record built from the entry's
record type (encoded in 2 bytes) and the line bytes after the pointer
prefix. -/
def Line.record (l : Line) : Record :=
  Record.create l.record_type (l._line.drop (4 * l.pointer_count))

/-- Source `class DB_Page` parse result (data.py:235-244): the buffer with
its derived header, trailer, line index and lines (the source stores the
`Line` views in its `_records` list). -/
structure DB_Page where
  _page : Bytes
  _page_header : PageHeader
  _page_trailer : PageTrailer
  _line_index : List LineIndexEntry
  _records : List Line
deriving DecidableEq

/-- Source `DB_Page.__init__` (data.py:235-244), the spec's `Page::open`:
header from `page[:24]`, trailer from `page[-8:]`, the integrity assert,
index region `page[-8*(count+1):-8]`, then one line slice
`page[entry.offset : entry.offset+entry.length]` per entry.  The source's
obvious syntax-level slips (`self.page` for `self._page`, iterating the
index object rather than its entry list) are read through; every slice
bound is kept literally. -/
def DB_Page.init (page : Bytes) : Except Err DB_Page :=
  let header := PageHeader.mk (page.take 24)
  let trailer := PageTrailer.mk (pySlice page (-8) (page.length : Int))
  if header.page_number = trailer.page_number then
    let entry_count := trailer.line_index_count
    let index := LineIndex.parse (pySlice page (-8 * ((entry_count : Int) + 1)) (-8))
    let records := index.map (fun e =>
      Line.mk e.record_type (pySlice page (e.offset : Int) ((e.offset : Int) + e.length)) e.pointer_size)
    .ok ⟨page, header, trailer, index, records⟩
  else .error .pageIntegrityError

/-- Source `DB_Page.__getitem__` (data.py:246-247): index into the parsed
line list. -/
def DB_Page.get (p : DB_Page) (i : Nat) : Option Line :=
  p._records[i]?

/-- Whether an `Except` computation succeeded (no exception was raised). -/
def exceptOk {α : Type} : Except Err α → Bool
  | .ok _ => true
  | .error _ => false

/-- A well-formed 4096-byte page buffer encoding one record: page number 5 in
header and trailer, one line at offset 24 of length 1 holding payload byte 65,
its index entry (type 1, offset 24, length 1, no pointers) at `buf[-16:-8]`,
and trailer count 1. -/
def buf1 : Bytes :=
  [0, 0, 0, 5] ++ List.replicate 20 0 ++ [65] ++ List.replicate 4055 0
    ++ [0, 1, 0, 24, 0, 1, 0, 0] ++ [1, 0, 0, 0, 0, 0, 0, 5]

/-- A 4096-byte page buffer with trailer count 2 whose physically first index
entry (the one the parser turns into logical entry 1) declares offset 4090 and
length 100, reaching far past `PAGE_SIZE - 8*(count+1)` and past the buffer
end. -/
def buf6 : Bytes :=
  [0, 0, 0, 7] ++ List.replicate 4068 0
    ++ [0, 1, 15, 250, 0, 100, 0, 0] ++ List.replicate 8 0 ++ [2, 0, 0, 0, 0, 0, 0, 7]

/-- A 4096-byte page buffer whose header page number (0) differs from its
trailer page number (9). -/
def bufIntegrity : Bytes :=
  List.replicate 4092 0 ++ [0, 0, 0, 9]

/-- Python byte comparison agrees with Mathlib's lexicographic order on lists:
a strict prefix is smaller, otherwise the first differing byte decides. -/
lemma pyBytesLt_iff_lex (a : Bytes) : ∀ b : Bytes, pyBytesLt a b = true ↔ List.Lex (· < ·) a b := by
  induction a with
  | nil =>
    intro b
    cases b with
    | nil => simp [pyBytesLt]
    | cons y ys =>
      simp only [pyBytesLt, true_iff]
      exact List.Lex.nil
  | cons x xs ih =>
    intro b
    cases b with
    | nil => simp [pyBytesLt]
    | cons y ys =>
      rcases Nat.lt_trichotomy x y with hxy | hxy | hxy
      · simp only [pyBytesLt, hxy, if_true, true_iff]
        exact List.Lex.rel hxy
      · subst hxy
        have hstep : pyBytesLt (x :: xs) (x :: ys) = pyBytesLt xs ys := by
          simp [pyBytesLt]
        rw [hstep, ih ys]
        exact Iff.symm List.Lex.cons_iff
      · have h1 : ¬ x < y := by omega
        have hne : ¬ List.Lex (· < ·) (x :: xs) (y :: ys) := by
          intro hl
          cases hl with
          | cons h => omega
          | rel h => omega
        simp [pyBytesLt, h1, hxy, hne]

/-- Python byte comparison is trichotomous. -/
lemma pyBytesLt_trichotomy (a : Bytes) : ∀ b : Bytes,
    pyBytesLt a b = true ∨ a = b ∨ pyBytesLt b a = true := by
  induction a with
  | nil =>
    intro b
    cases b with
    | nil => exact Or.inr (Or.inl rfl)
    | cons y ys => exact Or.inl rfl
  | cons x xs ih =>
    intro b
    cases b with
    | nil => exact Or.inr (Or.inr rfl)
    | cons y ys =>
      rcases Nat.lt_trichotomy x y with h | h | h
      · left
        simp [pyBytesLt, h]
      · subst h
        rcases ih ys with h2 | h2 | h2
        · left
          simpa [pyBytesLt] using h2
        · right
          left
          rw [h2]
        · right
          right
          simpa [pyBytesLt] using h2
      · right
        right
        simp [pyBytesLt, h]

/-- Python byte comparison is transitive. -/
lemma pyBytesLt_trans (a : Bytes) : ∀ b c : Bytes,
    pyBytesLt a b = true → pyBytesLt b c = true → pyBytesLt a c = true := by
  induction a with
  | nil =>
    intro b c hab hbc
    cases b with
    | nil => exact hbc
    | cons y ys =>
      cases c with
      | nil => simp [pyBytesLt] at hbc
      | cons z zs => rfl
  | cons x xs ih =>
    intro b c hab hbc
    cases b with
    | nil => simp [pyBytesLt] at hab
    | cons y ys =>
      cases c with
      | nil => simp [pyBytesLt] at hbc
      | cons z zs =>
        by_cases hxy : x < y
        · by_cases hyz : y < z
          · have hxz : x < z := by omega
            simp [pyBytesLt, hxz]
          · by_cases hzy : z < y
            · simp [pyBytesLt, hyz, hzy] at hbc
            · have hyz2 : y = z := by omega
              subst hyz2
              simp [pyBytesLt, hxy]
        · by_cases hyx : y < x
          · simp [pyBytesLt, hxy, hyx] at hab
          · have hxy2 : x = y := by omega
            subst hxy2
            have hab2 : pyBytesLt xs ys = true := by simpa [pyBytesLt] using hab
            by_cases hxz : x < z
            · simp [pyBytesLt, hxz]
            · by_cases hzx : z < x
              · simp [pyBytesLt, hxz, hzx] at hbc
              · have hxz2 : x = z := by omega
                subst hxz2
                have hbc2 : pyBytesLt ys zs = true := by simpa [pyBytesLt] using hbc
                simpa [pyBytesLt] using ih ys zs hab2 hbc2

/-- Claim C3 counterexample: the 4-byte input `FF FF FF 00` decodes without
error to a pointer whose page field is 16777215, outside the claimed range
`[0, 8388607]` — a 3-byte split carries 24 bits, one more than the 23-bit
page range, so decode's lack of range validation does not keep the invariant. -/
theorem pointer_from_bytes_page_exceeds_claimed_range :
    (Pointer.from_bytes [255, 255, 255, 0]).map Pointer.page = .ok 16777215
      ∧ ¬ (16777215 ≤ 8388607) :=
  ⟨rfl, by decide⟩

/-- Claim C3 (amended): for every 4-byte input of genuine bytes, decode
succeeds and returns the bytes unchanged, and the resulting pointer's page
field lies in `[0, 16777215]` (24 bits, not the claimed 23) and its line
field in `[0, 255]`. -/
theorem pointer_from_bytes_range_amended (chars : Bytes) (h4 : chars.length = 4)
    (hb : ∀ b ∈ chars, b < 256) :
    Pointer.from_bytes chars = .ok ⟨chars⟩
      ∧ (Pointer.mk chars).page ≤ 16777215 ∧ (Pointer.mk chars).line ≤ 255 := by
  obtain ⟨a, b, c, d, rfl⟩ : ∃ a b c d, chars = [a, b, c, d] := by
    rcases chars with _ | ⟨a, chars⟩
    · simp at h4
    rcases chars with _ | ⟨b, chars⟩
    · simp at h4
    rcases chars with _ | ⟨c, chars⟩
    · simp at h4
    rcases chars with _ | ⟨d, chars⟩
    · simp at h4
    rcases chars with _ | ⟨e, chars⟩
    · exact ⟨a, b, c, d, rfl⟩
    · simp at h4
  have ha : a < 256 := hb a (by simp)
  have hbb : b < 256 := hb b (by simp)
  have hc : c < 256 := hb c (by simp)
  have hd : d < 256 := hb d (by simp)
  refine ⟨rfl, ?_, ?_⟩
  · simp only [Pointer.page, fromBytesBE, List.take, List.foldl]
    omega
  · have hline : (Pointer.mk [a, b, c, d]).line = d := rfl
    rw [hline]
    omega

/-- Claim C3 amended witness at the concrete input `FF FF FF 00`. -/
theorem pointer_from_bytes_range_amended_witness :
    Pointer.from_bytes [255, 255, 255, 0] = .ok ⟨[255, 255, 255, 0]⟩
      ∧ (Pointer.mk [255, 255, 255, 0]).page ≤ 16777215
      ∧ (Pointer.mk [255, 255, 255, 0]).line ≤ 255 :=
  pointer_from_bytes_range_amended [255, 255, 255, 0] (by decide) (by decide)

/-- Claim C4: for every page in `[0, 8388607]` and line in `[0, 255]`,
decoding the encoding of `create(page, line)` yields the same pointer, and
pointer equality is exact byte equality of the encodings. -/
theorem pointer_roundtrip (page line : Int) (h1 : 0 ≤ page) (h2 : page ≤ 8388607)
    (h3 : 0 ≤ line) (h4 : line ≤ 255) :
    (Pointer.create page line).bind (fun p => Pointer.from_bytes p.encode)
        = Pointer.create page line
      ∧ (∀ p q : Pointer, p = q ↔ p.encode = q.encode) := by
  constructor
  · have hp : ¬ (page > 8388607 ∨ page < 0) := by omega
    have hl : ¬ (line > 255 ∨ line < 0) := by omega
    rw [Pointer.create, if_neg hp, if_neg hl]
    simp [Pointer.from_bytes, Pointer.encode, toBytesBE, Except.bind]
  · intro p q
    cases p
    cases q
    simp [Pointer.encode]

/-- Claim C4 witness at the concrete input (1812, 3) of the source's tests. -/
theorem pointer_roundtrip_witness :
    ((Pointer.create 1812 3).bind (fun p => Pointer.from_bytes p.encode)
        = Pointer.create 1812 3)
      ∧ (Pointer.mk [0, 7, 20, 3] = Pointer.mk [0, 7, 20, 3]
          ↔ (Pointer.mk [0, 7, 20, 3]).encode = (Pointer.mk [0, 7, 20, 3]).encode) :=
  ⟨(pointer_roundtrip 1812 3 (by decide) (by decide) (by decide) (by decide)).1,
   (pointer_roundtrip 1812 3 (by decide) (by decide) (by decide) (by decide)).2 _ _⟩

/-- Claim C7: pointer creation succeeds exactly when page is in
`[0, 8388607]` and line is in `[0, 255]`, and fails with RangeError
otherwise; the spec's boundary cases behave as stated. -/
theorem pointer_create_range :
    (∀ page line : Int, exceptOk (Pointer.create page line) = true ↔
        0 ≤ page ∧ page ≤ 8388607 ∧ 0 ≤ line ∧ line ≤ 255)
      ∧ exceptOk (Pointer.create 8388607 255) = true
      ∧ Pointer.create 8388608 0 = .error .rangeError
      ∧ Pointer.create (-1) 0 = .error .rangeError
      ∧ Pointer.create 0 256 = .error .rangeError := by
  refine ⟨?_, rfl, rfl, rfl, rfl⟩
  intro page line
  by_cases hp : page > 8388607 ∨ page < 0
  · simp only [Pointer.create, if_pos hp, exceptOk]
    constructor
    · intro h
      exact absurd h (by decide)
    · intro h
      exfalso
      omega
  · by_cases hl : line > 255 ∨ line < 0
    · simp only [Pointer.create, if_neg hp, if_pos hl, exceptOk]
      constructor
      · intro h
        exact absurd h (by decide)
      · intro h
        exfalso
        omega
    · simp only [Pointer.create, if_neg hp, if_neg hl, exceptOk]
      constructor
      · intro _
        omega
      · intro _
        trivial

/-- Claim C8: pointer decode succeeds if and only if the input is exactly
4 bytes, and fails with LengthError at every other length, in particular at
lengths 0, 1, 3, 5 and 8. -/
theorem pointer_from_bytes_length_contract :
    (∀ chars : Bytes, Pointer.from_bytes chars =
        if chars.length = 4 then .ok ⟨chars⟩ else .error .lengthError)
      ∧ Pointer.from_bytes [] = .error .lengthError
      ∧ Pointer.from_bytes [0] = .error .lengthError
      ∧ Pointer.from_bytes [0, 0, 0] = .error .lengthError
      ∧ exceptOk (Pointer.from_bytes [0, 0, 0, 0]) = true
      ∧ Pointer.from_bytes [0, 0, 0, 0, 0] = .error .lengthError
      ∧ Pointer.from_bytes [0, 0, 0, 0, 0, 0, 0, 0] = .error .lengthError := by
  refine ⟨?_, rfl, rfl, rfl, rfl, rfl, rfl⟩
  intro chars
  by_cases h : chars.length = 4
  · simp [Pointer.from_bytes, h]
  · simp [Pointer.from_bytes, h]

/-- Claim C9: the order on records is the lexicographic order on their full
encoded bytes (memcmp-then-length, tag bytes included), it is total
(trichotomous) and transitive, and `Record(1, empty) < Record(2, empty)`. -/
theorem record_order_total_lex :
    (∀ a b : Record, Record.lt a b = true ↔ List.Lex (· < ·) a._record b._record)
      ∧ (∀ a b : Record, Record.lt a b = true ∨ a = b ∨ Record.lt b a = true)
      ∧ (∀ a b c : Record, Record.lt a b = true → Record.lt b c = true →
          Record.lt a c = true)
      ∧ Record.lt (Record.create 1 []) (Record.create 2 []) = true := by
  refine ⟨fun a b => pyBytesLt_iff_lex _ _, ?_, ?_, by decide⟩
  · intro a b
    rcases pyBytesLt_trichotomy a._record b._record with h | h | h
    · exact Or.inl h
    · refine Or.inr (Or.inl ?_)
      cases a
      cases b
      simpa using h
    · exact Or.inr (Or.inr h)
  · intro a b c hab hbc
    exact pyBytesLt_trans a._record b._record c._record hab hbc

/-- Claim C9 witness: transitivity applied at three concrete records. -/
theorem record_order_total_lex_witness :
    Record.lt (Record.create 1 []) (Record.create 3 []) = true :=
  record_order_total_lex.2.2.1 (Record.create 1 []) (Record.create 2 [])
    (Record.create 3 []) (by decide) (by decide)

/-- Claim C10: record concatenation concatenates the encoded bytes and is
associative. -/
theorem record_concat_bytes_assoc :
    (∀ a b : Record, (Record.add a b)._record = a._record ++ b._record)
      ∧ ∀ a b c : Record, Record.add (Record.add a b) c = Record.add a (Record.add b c) := by
  refine ⟨fun a b => rfl, fun a b c => ?_⟩
  simp [Record.add, List.append_assoc]

/-- Claim C2 (code bug): on the 8-byte region holding one index entry, the
source's comprehension `contents[-(i+8):-i]` for `i in range(len, 0, -8)`
yields one entry whose bytes are EMPTY (the slice `[-16:-8]` of an 8-byte
string clamps to nothing) instead of the region's single 8-byte group, and a
7-byte region yields one entry instead of failing with MalformedIndexError. -/
theorem lineIndex_parse_off_by_one :
    (LineIndex.parse [0, 1, 0, 24, 0, 1, 0, 0]).map LineIndexEntry._entry = [[]]
      ∧ ([[]] : List Bytes) ≠ [[0, 1, 0, 24, 0, 1, 0, 0]]
      ∧ (LineIndex.parse [0, 0, 0, 0, 0, 0, 0]).length = 1 :=
  ⟨rfl, by decide, rfl⟩

/-- The length of `buf1` is one page. -/
lemma buf1_len : buf1.length = 4096 := by
  simp only [buf1, List.length_append, List.length_replicate, List.length_cons,
    List.length_nil]

/-- The trailer slice `buf1[-8:]`. -/
lemma buf1_trailer : pySlice buf1 (-8) (buf1.length : Int) = [1, 0, 0, 0, 0, 0, 0, 5] := by
  simp only [pySlice, buf1_len]
  simp
  simp only [buf1, List.drop_append_eq_append_drop, List.take_append_eq_append_take,
    List.drop_eq_nil_of_le, List.take_of_length_le, List.drop_replicate, List.take_replicate,
    List.length_cons, List.length_nil, List.length_replicate, List.length_append,
    List.nil_append, List.append_nil, List.replicate_zero, List.drop_zero, List.take_zero]
  norm_num

/-- The index-region slice `buf1[-16:-8]` holds the lone index entry. -/
lemma buf1_index_region : pySlice buf1 (-16) (-8) = [0, 1, 0, 24, 0, 1, 0, 0] := by
  simp only [pySlice, buf1_len]
  simp
  simp only [buf1, List.drop_append_eq_append_drop, List.take_append_eq_append_take,
    List.drop_eq_nil_of_le, List.take_of_length_le, List.drop_replicate, List.take_replicate,
    List.length_cons, List.length_nil, List.length_replicate, List.length_append,
    List.nil_append, List.append_nil, List.replicate_zero, List.drop_zero, List.take_zero]
  norm_num

/-- The line slice `buf1[24:25]` holds the record payload. -/
lemma buf1_line : pySlice buf1 24 25 = [65] := by
  simp only [pySlice, buf1_len]
  simp
  simp only [buf1, List.drop_append_eq_append_drop, List.take_append_eq_append_take,
    List.drop_eq_nil_of_le, List.take_of_length_le, List.drop_replicate, List.take_replicate,
    List.length_cons, List.length_nil, List.length_replicate, List.length_append,
    List.nil_append, List.append_nil, List.replicate_zero, List.drop_zero, List.take_zero]
  norm_num

/-- The first 4 bytes of the header of `buf1`: page number 5. -/
lemma buf1_take24_take4 : (buf1.take 24).take 4 = [0, 0, 0, 5] := by
  simp only [buf1, List.take_take, List.take_append_eq_append_take, List.take_of_length_le,
    List.take_replicate, List.length_cons, List.length_nil, List.length_replicate,
    List.length_append, List.nil_append, List.append_nil, List.replicate_zero,
    List.take_zero]
  norm_num

/-- The degenerate slice `buf1[0:0]` is empty. -/
lemma buf1_slice00 : pySlice buf1 0 0 = [] := by
  simp only [pySlice, buf1_len]
  simp

/-- The source's index parse turns the 8-byte region into one EMPTY entry. -/
lemma parse_E8 : LineIndex.parse [0, 1, 0, 24, 0, 1, 0, 0] = [⟨[]⟩] := by
  decide

/-- Parsing `buf1` in full: the integrity check passes (page number 5 on both
ends), but the line index comes out as the single empty entry and the lone
line is the empty slice `buf1[0:0]`. -/
lemma buf1_init : DB_Page.init buf1 =
    .ok ⟨buf1, PageHeader.mk (buf1.take 24), PageTrailer.mk [1, 0, 0, 0, 0, 0, 0, 5],
      [⟨[]⟩], [⟨0, [], 0⟩]⟩ := by
  have h5 : (PageHeader.mk (buf1.take 24)).page_number = 5 := by
    simp only [PageHeader.page_number]
    rw [buf1_take24_take4]
    rfl
  simp only [DB_Page.init, buf1_trailer, h5]
  norm_num [PageTrailer.page_number, PageTrailer.line_index_count, fromBytesBE]
  rw [buf1_index_region, parse_E8]
  simp only [List.map_cons, List.map_nil]
  norm_num [LineIndexEntry.record_type, LineIndexEntry.offset, LineIndexEntry.length,
    LineIndexEntry.pointer_size, fromBytesBE]
  rw [buf1_slice00]

/-- Claim C1 (code bug): `buf1` is a well-formed page encoding exactly one
record (type 1, payload byte 65, index entry at `buf1[-16:-8]`), yet parsing
returns a single phantom record with type 0 and empty payload — encoded bytes
`[0, 0]` instead of `[0, 1, 65]` — because the line-index comprehension
produces an empty entry; `get 0` returns that same phantom slot. -/
theorem dbpage_init_buf1_phantom :
    pySlice buf1 (-16) (-8) = [0, 1, 0, 24, 0, 1, 0, 0]
      ∧ pySlice buf1 24 25 = [65]
      ∧ (DB_Page.init buf1).map (fun p => p._records.map (fun l => (Line.record l)._record))
          = .ok [[0, 0]]
      ∧ (DB_Page.init buf1).map (fun p => (p.get 0).map (fun l => (Line.record l)._record))
          = .ok (some [0, 0])
      ∧ ([[0, 0]] : List Bytes) ≠ [[0, 1, 65]] :=
  ⟨buf1_index_region, buf1_line,
   by rw [buf1_init]; rfl,
   by rw [buf1_init]; rfl,
   by decide⟩

/-- Claim C5: parsing a 4096-byte buffer fails with PageIntegrityError
exactly when the header page number (bytes 0..3) differs from the trailer
page number (last 4 bytes), and succeeds exactly when they agree. -/
theorem dbpage_init_integrity_check (buf : Bytes) (h : buf.length = 4096) :
    (DB_Page.init buf = .error .pageIntegrityError ↔
        (PageHeader.mk (buf.take 24)).page_number ≠
          (PageTrailer.mk (pySlice buf (-8) (buf.length : Int))).page_number)
      ∧ (exceptOk (DB_Page.init buf) = true ↔
        (PageHeader.mk (buf.take 24)).page_number =
          (PageTrailer.mk (pySlice buf (-8) (buf.length : Int))).page_number) := by
  by_cases heq : (PageHeader.mk (buf.take 24)).page_number =
      (PageTrailer.mk (pySlice buf (-8) (buf.length : Int))).page_number
  · constructor
    · simp [DB_Page.init, heq, exceptOk]
    · simp [DB_Page.init, heq, exceptOk]
  · constructor
    · simp [DB_Page.init, heq, exceptOk]
    · simp [DB_Page.init, heq, exceptOk]

/-- Claim C5 witness: a 4096-byte buffer with header page number 0 and
trailer page number 9 is rejected with PageIntegrityError. -/
theorem dbpage_init_integrity_check_witness :
    (DB_Page.init bufIntegrity = .error .pageIntegrityError ↔
        (PageHeader.mk (bufIntegrity.take 24)).page_number ≠
          (PageTrailer.mk (pySlice bufIntegrity (-8) (bufIntegrity.length : Int))).page_number)
      ∧ (exceptOk (DB_Page.init bufIntegrity) = true ↔
        (PageHeader.mk (bufIntegrity.take 24)).page_number =
          (PageTrailer.mk (pySlice bufIntegrity (-8) (bufIntegrity.length : Int))).page_number) :=
  dbpage_init_integrity_check bufIntegrity
    (by simp only [bufIntegrity, List.length_append, List.length_replicate,
      List.length_cons, List.length_nil])

/-- The length of `buf6` is one page. -/
lemma buf6_len : buf6.length = 4096 := by
  simp only [buf6, List.length_append, List.length_replicate, List.length_cons,
    List.length_nil]

/-- The trailer slice `buf6[-8:]`. -/
lemma buf6_trailer : pySlice buf6 (-8) (buf6.length : Int) = [2, 0, 0, 0, 0, 0, 0, 7] := by
  simp only [pySlice, buf6_len]
  simp
  simp only [buf6, List.drop_append_eq_append_drop, List.take_append_eq_append_take,
    List.drop_eq_nil_of_le, List.take_of_length_le, List.drop_replicate, List.take_replicate,
    List.length_cons, List.length_nil, List.length_replicate, List.length_append,
    List.nil_append, List.append_nil, List.replicate_zero, List.drop_zero, List.take_zero]
  norm_num

/-- The index-region slice `buf6[-24:-8]`: the out-of-range entry followed by
the zero padding of the second index group. -/
lemma buf6_index_region :
    pySlice buf6 (-24) (-8) = [0, 1, 15, 250, 0, 100, 0, 0, 0, 0, 0, 0, 0, 0, 0, 0] := by
  simp only [pySlice, buf6_len]
  simp
  simp only [buf6, List.drop_append_eq_append_drop, List.take_append_eq_append_take,
    List.drop_eq_nil_of_le, List.take_of_length_le, List.drop_replicate, List.take_replicate,
    List.length_cons, List.length_nil, List.length_replicate, List.length_append,
    List.nil_append, List.append_nil, List.replicate_zero, List.drop_zero, List.take_zero]
  norm_num
  decide

/-- The first 4 bytes of the header of `buf6`: page number 7. -/
lemma buf6_take24_take4 : (buf6.take 24).take 4 = [0, 0, 0, 7] := by
  simp only [buf6, List.take_take, List.take_append_eq_append_take, List.take_of_length_le,
    List.take_replicate, List.length_cons, List.length_nil, List.length_replicate,
    List.length_append, List.nil_append, List.append_nil, List.replicate_zero,
    List.take_zero]
  norm_num

/-- The degenerate slice `buf6[0:0]` is empty. -/
lemma buf6_slice00 : pySlice buf6 0 0 = [] := by
  simp only [pySlice, buf6_len]
  simp

/-- The out-of-range line slice `buf6[4090:4190]` silently clamps to the last
6 bytes of the buffer (the tail of the trailer). -/
lemma buf6_line_slice : pySlice buf6 4090 4190 = [0, 0, 0, 0, 0, 7] := by
  simp only [pySlice, buf6_len]
  simp
  simp only [buf6, List.drop_append_eq_append_drop, List.take_append_eq_append_take,
    List.drop_eq_nil_of_le, List.take_of_length_le, List.drop_replicate, List.take_replicate,
    List.length_cons, List.length_nil, List.length_replicate, List.length_append,
    List.nil_append, List.append_nil, List.replicate_zero, List.drop_zero, List.take_zero]
  norm_num

/-- The source's index parse on the 16-byte region of `buf6`: one empty
phantom entry, then the region's FIRST group; the group nearest the trailer
is dropped. -/
lemma parse_region16 :
    LineIndex.parse [0, 1, 15, 250, 0, 100, 0, 0, 0, 0, 0, 0, 0, 0, 0, 0]
      = [⟨[]⟩, ⟨[0, 1, 15, 250, 0, 100, 0, 0]⟩] := by
  decide

/-- Parsing `buf6` in full: the integrity check passes, the index holds the
phantom entry plus the out-of-range entry, and the out-of-range line is
clamped to the 6 bytes left before the buffer end. -/
lemma buf6_init : DB_Page.init buf6 =
    .ok ⟨buf6, PageHeader.mk (buf6.take 24), PageTrailer.mk [2, 0, 0, 0, 0, 0, 0, 7],
      [⟨[]⟩, ⟨[0, 1, 15, 250, 0, 100, 0, 0]⟩],
      [⟨0, [], 0⟩, ⟨1, [0, 0, 0, 0, 0, 7], 0⟩]⟩ := by
  have h7 : (PageHeader.mk (buf6.take 24)).page_number = 7 := by
    simp only [PageHeader.page_number]
    rw [buf6_take24_take4]
    rfl
  simp only [DB_Page.init, buf6_trailer, h7]
  norm_num [PageTrailer.page_number, PageTrailer.line_index_count, fromBytesBE]
  rw [buf6_index_region, parse_region16]
  simp only [List.map_cons, List.map_nil]
  norm_num [LineIndexEntry.record_type, LineIndexEntry.offset, LineIndexEntry.length,
    LineIndexEntry.pointer_size, fromBytesBE]
  rw [buf6_slice00, buf6_line_slice]
  exact ⟨rfl, rfl⟩

/-- Claim C6 (code bug): `buf6` has trailer count 2 and an index entry with
offset 4090 and length 100, so `offset + length = 4190` exceeds
`PAGE_SIZE - 8*(count+1) = 4072`, yet parsing succeeds and returns records
(the out-of-range line is silently clamped to the 6 bytes that remain before
the buffer end) instead of failing with OutOfBoundsError. -/
theorem dbpage_init_no_bounds_check :
    (DB_Page.init buf6).map (fun p => p._line_index.map (fun e => (e.offset, e.length)))
        = .ok [(0, 0), (4090, 100)]
      ∧ (DB_Page.init buf6).map (fun p => p._records.map (fun l => l._line.length))
        = .ok [0, 6]
      ∧ exceptOk (DB_Page.init buf6) = true
      ∧ 4090 + 100 > PAGE_SIZE - 8 * (2 + 1) :=
  ⟨by rw [buf6_init]; rfl,
   by rw [buf6_init]; rfl,
   by rw [buf6_init]; rfl,
   by decide⟩
